import Mathlib

/-!
Verification of the AI-response reconciliation pipeline of the
GeekyGoose-Compliance-Community repository (src/apps/api).  Python code is
shallowly embedded: pure fragments become Lean functions, database effects
become explicit state passing, Python `float` confidences become `Rat`
(the decimal literals and comparisons the code uses are exact in either
representation), and fallible code returns `Option`/`Except`.
-/

namespace GGC

/-- Characters stripped by Python's `str.strip()` (the ASCII whitespace set;
the code never feeds non-ASCII whitespace to `strip`). -/
def isPySpace (c : Char) : Bool :=
  c = ' ' || c = '\t' || c = '\n' || c = '\r' || c = '\x0b' || c = '\x0c'

/-- Python `str.strip()` on the character list of a string. -/
def pyStripList (l : List Char) : List Char :=
  (((l.dropWhile isPySpace).reverse).dropWhile isPySpace).reverse

/-- Python `str.strip()`. -/
def pyStrip (s : String) : String := String.mk (pyStripList s.data)

/-- The brace-counting loop of `_extract_json_content_only`
(src/apps/api/main.py lines 321-331).  The scan starts at the first `{` of
the text; `count` is the running `brace_count` (an `Int`, as in Python).
`some k` means the loop hit `brace_count == 0` after consuming `k`
characters (Python's `end_idx - start_idx`); `none` means the loop ended
with `brace_count != 0`, in which case the source returns `None`. -/
def braceScanLen : List Char → Int → Option Nat
  | [], _ => none
  | c :: rest, count =>
    if c = '\x7b' then (braceScanLen rest (count + 1)).map (· + 1)
    else if c = '\x7d' then
      if count - 1 = 0 then some 1
      else (braceScanLen rest (count - 1)).map (· + 1)
    else (braceScanLen rest count).map (· + 1)

/-- The slice-and-strip tail of `_extract_json_content_only` (main.py lines
316-336) applied to the text from the first `{` on: the empty list is the
`find('{') == -1` case; otherwise the brace-counting loop either balances
after `k` characters — the stripped slice is returned — or does not, and
`None` is returned.  The source's final guard `end_idx > start_idx` is
implied by `braceScanLen` returning `some` (the loop only breaks after
consuming at least the opening brace). -/
def extractBraceScan : List Char → Option String
  | [] => none
  | c :: cs =>
    match braceScanLen (c :: cs) 0 with
    | some k => some (String.mk (pyStripList ((c :: cs).take k)))
    | none => none

/-- The body of `_extract_json_content_only` on the stripped text: return
it whole when it already starts with `{` and ends with `}` (main.py lines
312-314); otherwise drop everything before the first `{` (Python's
`find('{')` plus slicing) and run the brace-counting scan. -/
def extractBody (t : List Char) : Option String :=
  if t.head? = some '\x7b' && t.getLast? = some '\x7d' then some (String.mk t)
  else extractBraceScan (t.dropWhile (· ≠ '\x7b'))

/-- `_extract_json_content_only` (src/apps/api/main.py lines 302-336). -/
def extract_json_content_only (responseText : String) : Option String :=
  if responseText = "" then none
  else extractBody (pyStripList responseText.data)

/-! ### A model of Python's `json.loads`

The pipeline repeatedly calls `json.loads` and checks `isinstance(parsed,
dict)`.  JSON values are embedded as `JsonValue`; numeric literals are kept
as their source lexeme (no claim compares numbers across spellings, and
floating point itself is outside the embedding). -/

inductive JsonValue where
  | null
  | bool (b : Bool)
  | num (lexeme : String)
  | str (s : String)
  | arr (elems : List JsonValue)
  | obj (fields : List (String × JsonValue))

/-- Python `isinstance(parsed, dict)`. -/
def JsonValue.isObj : JsonValue → Bool
  | .obj _ => true
  | _ => false

/-- Whitespace the `json` module skips between tokens. -/
def isJsonWs (c : Char) : Bool :=
  c = ' ' || c = '\t' || c = '\n' || c = '\r'

/-- Value of a hex digit, for `\uXXXX` string escapes. -/
def hexVal (c : Char) : Option Nat :=
  if '0' ≤ c ∧ c ≤ '9' then some (c.toNat - '0'.toNat)
  else if 'a' ≤ c ∧ c ≤ 'f' then some (c.toNat - 'a'.toNat + 10)
  else if 'A' ≤ c ∧ c ≤ 'F' then some (c.toNat - 'A'.toNat + 10)
  else none

/-- Body of a JSON string after the opening quote: returns the decoded
content and the input remaining after the closing quote.  Surrogate-pair
recombination is not modelled (no input in this development uses it);
unescaped control characters are rejected as in the module's strict mode. -/
def parseJsonStringBody : Nat → List Char → List Char → Option (String × List Char)
  | 0, _, _ => none
  | _ + 1, [], _ => none
  | fuel + 1, c :: rest, acc =>
    if c = '"' then some (String.mk acc.reverse, rest)
    else if c = '\\' then
      match rest with
      | [] => none
      | e :: rest2 =>
        if e = '"' then parseJsonStringBody fuel rest2 ('"' :: acc)
        else if e = '\\' then parseJsonStringBody fuel rest2 ('\\' :: acc)
        else if e = '/' then parseJsonStringBody fuel rest2 ('/' :: acc)
        else if e = 'b' then parseJsonStringBody fuel rest2 ('\x08' :: acc)
        else if e = 'f' then parseJsonStringBody fuel rest2 ('\x0c' :: acc)
        else if e = 'n' then parseJsonStringBody fuel rest2 ('\n' :: acc)
        else if e = 'r' then parseJsonStringBody fuel rest2 ('\r' :: acc)
        else if e = 't' then parseJsonStringBody fuel rest2 ('\t' :: acc)
        else if e = 'u' then
          match rest2 with
          | h1 :: h2 :: h3 :: h4 :: rest3 =>
            match hexVal h1, hexVal h2, hexVal h3, hexVal h4 with
            | some a, some b, some c', some d =>
              parseJsonStringBody fuel rest3
                (Char.ofNat (((a * 16 + b) * 16 + c') * 16 + d) :: acc)
            | _, _, _, _ => none
          | _ => none
        else none
    else if c.toNat < 0x20 then none
    else parseJsonStringBody fuel rest (c :: acc)

/-- Lexeme of a JSON number: `-? (0 | [1-9][0-9]*) (. [0-9]+)? ([eE][+-]?[0-9]+)?`.
Returns the lexeme and the remaining input. -/
def parseJsonNumberLexeme (cs : List Char) : Option (List Char × List Char) :=
  let (sign, cs1) :=
    match cs with
    | '-' :: rest => ([('-' : Char)], rest)
    | _ => ([], cs)
  let intPart := cs1.takeWhile Char.isDigit
  let cs2 := cs1.dropWhile Char.isDigit
  if intPart = [] then none
  else if intPart.length > 1 ∧ intPart.head? = some '0' then none
  else
    let (fracPart, cs3) :=
      match cs2 with
      | '.' :: rest =>
        let ds := rest.takeWhile Char.isDigit
        if ds = [] then ([], cs2) else ('.' :: ds, rest.dropWhile Char.isDigit)
      | _ => ([], cs2)
    if fracPart = [] ∧ cs2.head? = some '.' then none
    else
      let (expPart, cs4) :=
        match cs3 with
        | e :: rest =>
          if e = 'e' ∨ e = 'E' then
            let (es, rest1) :=
              match rest with
              | s :: r1 => if s = '+' ∨ s = '-' then ([s], r1) else ([], rest)
              | [] => ([], rest)
            let ds := rest1.takeWhile Char.isDigit
            if ds = [] then ([], cs3)
            else (e :: (es ++ ds), rest1.dropWhile Char.isDigit)
          else ([], cs3)
        | [] => ([], cs3)
      some (sign ++ intPart ++ fracPart ++ expPart, cs4)

/-- Does `pre` start the list `cs`?  Helper for literal tokens. -/
def startsWithChars (pre cs : List Char) : Bool :=
  pre.isPrefixOf cs

mutual

/-- Recursive-descent JSON value parse, mirroring the grammar accepted by
Python's `json.loads` (including its `NaN`/`Infinity` extensions).  The
caller must have skipped leading whitespace.  Returns the value and the
remaining input. -/
def parseJsonValue : Nat → List Char → Option (JsonValue × List Char)
  | 0, _ => none
  | fuel + 1, cs =>
    match cs with
    | [] => none
    | c :: rest =>
      if c = 'n' then
        if startsWithChars ['u', 'l', 'l'] rest then
          some (.null, rest.drop 3)
        else none
      else if c = 't' then
        if startsWithChars ['r', 'u', 'e'] rest then
          some (.bool true, rest.drop 3)
        else none
      else if c = 'f' then
        if startsWithChars ['a', 'l', 's', 'e'] rest then
          some (.bool false, rest.drop 4)
        else none
      else if c = 'N' then
        if startsWithChars ['a', 'N'] rest then
          some (.num "NaN", rest.drop 2)
        else none
      else if c = 'I' then
        if startsWithChars ['n', 'f', 'i', 'n', 'i', 't', 'y'] rest then
          some (.num "Infinity", rest.drop 7)
        else none
      else if c = '-' ∧ rest.head? = some 'I' then
        if startsWithChars ['I', 'n', 'f', 'i', 'n', 'i', 't', 'y'] rest then
          some (.num "-Infinity", rest.drop 8)
        else none
      else if c = '"' then
        match parseJsonStringBody (rest.length + 1) rest [] with
        | some (s, rest1) => some (.str s, rest1)
        | none => none
      else if c = '\x7b' then
        let cs1 := rest.dropWhile isJsonWs
        match cs1 with
        | '\x7d' :: rest1 => some (.obj [], rest1)
        | _ => parseJsonMembers fuel cs1 []
      else if c = '[' then
        let cs1 := rest.dropWhile isJsonWs
        match cs1 with
        | ']' :: rest1 => some (.arr [], rest1)
        | _ => parseJsonElements fuel cs1 []
      else if c = '-' ∨ c.isDigit then
        match parseJsonNumberLexeme cs with
        | some (lex, rest1) => some (.num (String.mk lex), rest1)
        | none => none
      else none

/-- Members of a JSON object after the opening brace (and any whitespace),
accumulating parsed fields in reverse. -/
def parseJsonMembers : Nat → List Char →
    List (String × JsonValue) → Option (JsonValue × List Char)
  | 0, _, _ => none
  | fuel + 1, cs, acc =>
    match cs with
    | '"' :: rest =>
      match parseJsonStringBody (rest.length + 1) rest [] with
      | some (key, rest1) =>
        match rest1.dropWhile isJsonWs with
        | ':' :: rest2 =>
          match parseJsonValue fuel (rest2.dropWhile isJsonWs) with
          | some (v, rest3) =>
            match rest3.dropWhile isJsonWs with
            | ',' :: rest4 =>
              parseJsonMembers fuel (rest4.dropWhile isJsonWs) ((key, v) :: acc)
            | '\x7d' :: rest4 => some (.obj ((key, v) :: acc).reverse, rest4)
            | _ => none
          | none => none
        | _ => none
      | none => none
    | _ => none

/-- Elements of a JSON array after the opening bracket (and any whitespace),
accumulating parsed elements in reverse. -/
def parseJsonElements : Nat → List Char →
    List JsonValue → Option (JsonValue × List Char)
  | 0, _, _ => none
  | fuel + 1, cs, acc =>
    match parseJsonValue fuel cs with
    | some (v, rest) =>
      match rest.dropWhile isJsonWs with
      | ',' :: rest1 => parseJsonElements fuel (rest1.dropWhile isJsonWs) (v :: acc)
      | ']' :: rest1 => some (.arr (v :: acc).reverse, rest1)
      | _ => none
    | none => none

end

/-- Python `json.loads`: parse one JSON document, allowing surrounding
whitespace and rejecting trailing content. -/
def json_loads (s : String) : Option JsonValue :=
  let cs := s.data.dropWhile isJsonWs
  match parseJsonValue (2 * cs.length + 4) cs with
  | some (v, rest) => if rest.dropWhile isJsonWs = [] then some v else none
  | none => none

/-! ### A model of the `re` usage in `_extract_json_from_response`

The function applies `re.findall` with a fixed set of patterns built from
literals, character classes and greedy/lazy repetition (no alternation, no
anchors).  A small continuation-passing backtracking matcher reproduces the
engine's leftmost, greedy-prefers-longer / lazy-prefers-shorter semantics
on exactly that fragment. -/

inductive RE where
  | eps
  | lit (c : Char)
  | cls (p : Char → Bool)
  | seq (a b : RE)
  | starG (a : RE)
  | starL (a : RE)

/-- Backtracking matcher in continuation style.  `k` receives the input
remaining after the part of the match explored so far; the first overall
success (in the engine's preference order) wins.  `fuel` only bounds
recursion depth — every starred sub-pattern in the source's patterns
consumes at least one character per iteration, so the guard
`rest.length < cs.length` never cuts a Python-reachable path. -/
def reRun {β : Type} : Nat → RE → List Char → (List Char → Option β) → Option β
  | 0, _, _, _ => none
  | fuel + 1, r, cs, k =>
    match r with
    | .eps => k cs
    | .lit c =>
      match cs with
      | [] => none
      | x :: rest => if x = c then k rest else none
    | .cls p =>
      match cs with
      | [] => none
      | x :: rest => if p x then k rest else none
    | .seq a b => reRun fuel a cs (fun rest => reRun fuel b rest k)
    | .starG a =>
      match reRun fuel a cs (fun rest =>
          if rest.length < cs.length then reRun fuel (.starG a) rest k
          else none) with
      | some res => some res
      | none => k cs
    | .starL a =>
      match k cs with
      | some res => some res
      | none =>
        reRun fuel a cs (fun rest =>
          if rest.length < cs.length then reRun fuel (.starL a) rest k
          else none)

/-- Sequence a list of sub-patterns. -/
def reSeqList (rs : List RE) : RE :=
  rs.foldr .seq .eps

/-- A literal string as a pattern. -/
def reChars (s : String) : RE :=
  reSeqList (s.data.map .lit)

/-- The class `.` under `re.DOTALL` (and `[\s\S]`). -/
def reAnyChar : RE := .cls fun _ => true

/-- The class `[^{}]`. -/
def reNonBrace : RE := .cls fun c => c != '\x7b' && c != '\x7d'

/-- The class `[^\]]`. -/
def reNonRBracket : RE := .cls fun c => c != ']'

/-- The class `\s` (on the ASCII inputs the code handles). -/
def reWs : RE := .cls isPySpace

/-- Attempt a match anchored at the current position: the matched prefix and
the remainder, following the engine's backtracking order. -/
def reMatchHere (r : RE) (cs : List Char) : Option (List Char × List Char) :=
  (reRun (cs.length + 100) r cs fun rest => some rest).map fun rest =>
    (cs.take (cs.length - rest.length), rest)

/-- Scan of `re.findall` (no capture groups): leftmost matches, resuming
after each match. -/
def reFindallGo : Nat → RE → List Char → List (List Char)
  | 0, _, _ => []
  | fuel + 1, r, cs =>
    match reMatchHere r cs with
    | some (m, rest) =>
      match m with
      | [] =>
        match cs with
        | [] => []
        | _ :: t => reFindallGo fuel r t
      | _ => m :: reFindallGo fuel r rest
    | none =>
      match cs with
      | [] => []
      | _ :: t => reFindallGo fuel r t

/-- Python `re.findall(pattern, text, re.DOTALL)` for a group-free pattern. -/
def reFindall (r : RE) (cs : List Char) : List (List Char) :=
  reFindallGo (cs.length + 1) r cs

/-- Anchored match for a pattern of shape `A(B)C` with one capture group:
returns the captured text and the remainder after the whole match. -/
def reMatchHereGrp (a b c : RE) (cs : List Char) :
    Option (List Char × List Char) :=
  reRun (cs.length + 100) a cs fun r1 =>
    reRun (cs.length + 100) b r1 fun r2 =>
      reRun (cs.length + 100) c r2 fun r3 =>
        some (r1.take (r1.length - r2.length), r3)

/-- Scan of `re.findall` for an `A(B)C` pattern: the captured group of each
leftmost match. -/
def reFindallGrpGo : Nat → RE → RE → RE → List Char → List (List Char)
  | 0, _, _, _, _ => []
  | fuel + 1, a, b, c, cs =>
    match reMatchHereGrp a b c cs with
    | some (g, rest) =>
      if rest.length < cs.length then g :: reFindallGrpGo fuel a b c rest
      else
        match cs with
        | [] => []
        | _ :: t => reFindallGrpGo fuel a b c t
    | none =>
      match cs with
      | [] => []
      | _ :: t => reFindallGrpGo fuel a b c t

/-- Python `re.findall(pattern, text, re.DOTALL)` for an `A(B)C` pattern. -/
def reFindallGrp (a b c : RE) (cs : List Char) : List (List Char) :=
  reFindallGrpGo (cs.length + 1) a b c cs

/-! ### `_extract_json_from_response` (src/apps/api/main.py lines 338-416) -/

/-- The five `json_patterns` (main.py lines 362-368), in source order:
`\{[^{}]*"document_type"[^{}]*\}`, `\{[^{}]*"selected_control_number"[^{}]*\}`,
`\{[^{}]*"suggestions"[^{}]*\[[^\]]*\][^{}]*\}`,
`\{.*?"suggestions".*?\[.*?\].*?\}` and `\{[\s\S]*?\}`. -/
def json_patterns : List RE :=
  [reSeqList [.lit '\x7b', .starG reNonBrace, reChars "\"document_type\"",
      .starG reNonBrace, .lit '\x7d'],
   reSeqList [.lit '\x7b', .starG reNonBrace, reChars "\"selected_control_number\"",
      .starG reNonBrace, .lit '\x7d'],
   reSeqList [.lit '\x7b', .starG reNonBrace, reChars "\"suggestions\"",
      .starG reNonBrace, .lit '[', .starG reNonRBracket, .lit ']',
      .starG reNonBrace, .lit '\x7d'],
   reSeqList [.lit '\x7b', .starL reAnyChar, reChars "\"suggestions\"",
      .starL reAnyChar, .lit '[', .starL reAnyChar, .lit ']',
      .starL reAnyChar, .lit '\x7d'],
   reSeqList [.lit '\x7b', .starL reAnyChar, .lit '\x7d']]

/-- Inner loop shared by the pattern and code-block stages: strip each
candidate, `json.loads` it, and return the first that parses to a dict. -/
def firstParsedDict : List (List Char) → Option JsonValue
  | [] => none
  | c :: rest =>
    match json_loads (String.mk (pyStripList c)) with
    | some v => if v.isObj then some v else firstParsedDict rest
    | none => firstParsedDict rest

/-- Stage 1 (main.py lines 352-359): parse the whole stripped response,
returning it only when it is a dict (a non-dict parse falls through). -/
def stageDirectDict (t : String) : Option JsonValue :=
  match json_loads t with
  | some v => if v.isObj then some v else none
  | none => none

/-- Stage 2 (main.py lines 361-381): `re.findall` each of the five
`json_patterns` in order; first candidate parsing to a dict wins. -/
def stagePatterns (t : String) : Option JsonValue :=
  firstParsedDict (json_patterns.flatMap fun r => reFindall r t.data)

/-- Stage 3 (main.py lines 383-397): the two fenced code block patterns
` ```json\s*(\{.*?\})\s*``` ` and ` ```\s*(\{.*?\})\s*``` `; first captured
group parsing to a dict wins. -/
def stageCodeBlocks (t : String) : Option JsonValue :=
  firstParsedDict
    (reFindallGrp (reSeqList [reChars "```json", .starG reWs])
        (reSeqList [.lit '\x7b', .starL reAnyChar, .lit '\x7d'])
        (reSeqList [.starG reWs, reChars "```"]) t.data
      ++ reFindallGrp (reSeqList [reChars "```", .starG reWs])
        (reSeqList [.lit '\x7b', .starL reAnyChar, .lit '\x7d'])
        (reSeqList [.starG reWs, reChars "```"]) t.data)

/-- Stage 4 (main.py lines 399-403): parse the whole response again,
this time returning any JSON value, not only dicts. -/
def stageWholeAny (t : String) : Option JsonValue :=
  json_loads t

/-- Stage 5 (main.py lines 405-414): slice from the first `{` to the last
`}` (Python `find`/`rfind`; requires the last `}` to lie after the first
`{`) and parse that span, again accepting any JSON value. -/
def stageSlice (t : String) : Option JsonValue :=
  let fromB := t.data.dropWhile (· != '\x7b')
  match fromB with
  | [] => none
  | _ :: _ =>
    if fromB.contains '\x7d' then
      json_loads (String.mk ((fromB.reverse.dropWhile (· != '\x7d')).reverse))
    else none

/-- `_extract_json_from_response` (src/apps/api/main.py lines 338-416):
empty input short-circuits; otherwise the stripped text runs through the
five stages above with each `return` ending the function. -/
def extract_json_from_response (responseText : String) : Option JsonValue :=
  if responseText = "" then none
  else
    let t := pyStrip responseText
    match stageDirectDict t with
    | some v => some v
    | none =>
      match stagePatterns t with
      | some v => some v
      | none =>
        match stageCodeBlocks t with
        | some v => some v
        | none =>
          match stageWholeAny t with
          | some v => some v
          | none => stageSlice t

/-- First strategy that yields a value, for stating the actual stage order
of `_extract_json_from_response` as an ordered strategy list. -/
def firstSomeStage : List (String → Option JsonValue) → String → Option JsonValue
  | [], _ => none
  | f :: fs, t =>
    match f t with
    | some v => some v
    | none => firstSomeStage fs t

/-! ### The spec's stated strategy order (for comparison with the code) -/

/-- Suffix of `cs` after the first occurrence of `pat`, when `pat` occurs. -/
def afterFirst (pat : List Char) : List Char → Option (List Char)
  | [] => if pat = [] then some [] else none
  | c :: rest =>
    if pat.isPrefixOf (c :: rest) then some ((c :: rest).drop pat.length)
    else afterFirst pat rest

/-- Prefix of `cs` before the first occurrence of `pat`, when `pat` occurs. -/
def beforeFirst (pat : List Char) : List Char → Option (List Char)
  | [] => if pat = [] then some [] else none
  | c :: rest =>
    if pat.isPrefixOf (c :: rest) then some []
    else (beforeFirst pat rest).map (c :: ·)

/-- Prefix of `cs` before the last occurrence of `pat`, when `pat` occurs. -/
def beforeLast (pat : List Char) : List Char → Option (List Char)
  | [] => if pat = [] then some [] else none
  | c :: rest =>
    match beforeLast pat rest with
    | some p => some (c :: p)
    | none => if pat.isPrefixOf (c :: rest) then some [] else none

/-- Modelled from the spec: strategy 2 of §4.3, "fenced-block extraction — if
a fenced code block marker is present, extract its interior and retry direct
parse".  The interior is taken as in the source's other fence handler
(main.py lines 1048-1059): after a ```` ```json ```` marker up to the next
fence, otherwise between the first and last bare ```` ``` ```` fences. -/
def specFencedStage (t : List Char) : Option JsonValue :=
  let candidate : Option (List Char) :=
    match afterFirst "```json".data t with
    | some rest => beforeFirst "```".data rest
    | none =>
      match afterFirst "```".data t with
      | some rest => beforeLast "```".data rest
      | none => none
  match candidate with
  | some c =>
    match json_loads (String.mk (pyStripList c)) with
    | some v => if v.isObj then some v else none
    | none => none
  | none => none

/-- Modelled from the spec: strategy 3 of §4.3, "brace-matched extraction —
scan for the first opening brace, track nesting depth, and extract the
substring up to the matching closing brace; retry parse on that substring"
(the in-source analogue of the scan is `_extract_json_content_only`). -/
def specBraceStage (t : List Char) : Option JsonValue :=
  let fromB := t.dropWhile (· != '\x7b')
  match fromB with
  | [] => none
  | _ :: _ =>
    match braceScanLen fromB 0 with
    | some k =>
      match json_loads (String.mk (fromB.take k)) with
      | some v => if v.isObj then some v else none
      | none => none
    | none => none

/-- Modelled from the spec: strategy 5 of §4.3, the first-`{`-to-last-`}`
slice, accepted only when it parses as an object. -/
def specSliceStage (t : String) : Option JsonValue :=
  match stageSlice t with
  | some v => if v.isObj then some v else none
  | none => none

/-- Modelled from the spec: the §4.3 recovery chain in the order the spec
states it — direct parse, fenced-block, brace-matched, pattern-guided,
first-to-last-brace slice — returning the first strategy whose candidate
parses as an object and `none` when all five fail. -/
def spec_ordered_extract (responseText : String) : Option JsonValue :=
  let t := pyStrip responseText
  firstSomeStage
    [stageDirectDict, fun u => specFencedStage u.data,
     fun u => specBraceStage u.data, stagePatterns, specSliceStage] t

/-! ### Data model rows used by the linking pipeline (src/apps/api/models.py)

Confidences are Python floats in the source; they are embedded as `Rat`
(every confidence the claims mention is a short decimal, for which `≥`,
`min` and the 0.90 default behave identically in both representations). -/

/-- A transient classification suggestion dict (`control_code`,
`confidence`, `reasoning`; the title/framework fields play no part in the
claims and are omitted). -/
structure Suggestion where
  control_code : String
  confidence : Rat
  reasoning : String

/-- The relevant columns of the singleton `Settings` row (models.py lines
223-239).  `use_dual_vision_validation` is an SQLite 0/1 integer read
through `bool(...)`. -/
structure SettingsRow where
  min_confidence_threshold : Rat
  use_dual_vision_validation : Bool

/-- The relevant columns of a `Control` row (models.py lines 48-60). -/
structure ControlRow where
  id : String
  code : String

/-- A `DocumentControlLink` row (models.py lines 137-157). -/
structure LinkRow where
  document_id : String
  control_id : String
  confidence : Rat
  reasoning : String

/-- Threshold resolution in `process_document_ai_analysis_background`
(main.py line 1284): the configured value when the settings row exists,
0.90 otherwise. -/
def resolveMinThreshold (settings : Option SettingsRow) : Rat :=
  match settings with
  | some s => s.min_confidence_threshold
  | none => (90 : Rat) / 100

/-- The uniqueness invariant the storage schema enforces through the unique
index `idx_doc_control_unique` on `(document_id, control_id)` (models.py
line 153): no two link rows share a (document, control) pair. -/
def DocumentControlLinkUnique (links : List LinkRow) : Prop :=
  links.Pairwise fun a b =>
    ¬(a.document_id = b.document_id ∧ a.control_id = b.control_id)

/-- The link-materialization step of `process_document_ai_analysis_background`
(main.py lines 1356-1383): when the document row is found and a suggestion
survives, look up the suggested control by code; if found and the
confidence meets the threshold, insert a `DocumentControlLink` unless one
already exists for the (document, control) pair; below the threshold the
attempt is only logged.  Returns the resulting link table. -/
def storeAiResult (minThreshold : Rat) (documentExists : Bool)
    (controls : List ControlRow) (links : List LinkRow)
    (documentId : String) (suggestedControls : List Suggestion) : List LinkRow :=
  match suggestedControls with
  | [] => links
  | best :: _ =>
    if documentExists then
      match controls.find? (fun c => c.code == best.control_code) with
      | none => links
      | some control =>
        if best.confidence ≥ minThreshold then
          if (links.find? fun l =>
              l.document_id == documentId && l.control_id == control.id).isSome then
            links
          else
            links ++ [⟨documentId, control.id, best.confidence, best.reasoning⟩]
        else links
    else links

/-- The dual-vision consensus step (main.py lines 1320-1345).
`dualResults` holds the per-provider analyses that produced a non-empty
result (the source appends an entry only under `if result:`); `mkReasoning`
renders the consensus log string (an f-string over the two model names and
confidences, opaque here).  With exactly two results: identical control
codes keep one suggestion at the minimum of the two confidences, differing
codes clear the suggestion list; otherwise the initial single-model
suggestions are kept. -/
def dualVisionMerge (suggestedControls : List Suggestion)
    (dualResults : List Suggestion)
    (mkReasoning : Suggestion → Suggestion → String) : List Suggestion :=
  match dualResults with
  | [r1, r2] =>
    if r1.control_code == r2.control_code then
      [⟨r1.control_code, min r1.confidence r2.confidence, mkReasoning r1 r2⟩]
    else []
  | _ => suggestedControls

/-- The one-control-per-document collapse in
`safe_analyze_file_content_for_controls` (main.py lines 1134-1152), applied
to the list the underlying analysis returned: more than one suggestion is
sorted by confidence descending (Python `sorted(..., reverse=True)`, a
stable sort) and only the first kept; shorter lists pass through. -/
def safe_analyze_collapse (result : List Suggestion) : List Suggestion :=
  if result.length > 1 then
    match result.mergeSort (fun a b => decide (b.confidence ≤ a.confidence)) with
    | [] => []
    | top :: _ => [top]
  else result

/-- A `Document` row as `find_unprocessed_documents` sees it (models.py
lines 76-101): identifier and creation time, the latter in seconds. -/
structure DocumentRow where
  id : String
  created_at : Int

/-- `find_unprocessed_documents` (main.py lines 1154-1177).  The query at
lines 1165-1169 is built with `db.func.count(DocumentControlLink.id)`, but
`db` is a plain SQLAlchemy `Session` (the `db: Session = Depends(get_db)`
annotations throughout main.py fix `get_db`'s type), and `Session` has no
`func` attribute — that spelling belongs to Flask-SQLAlchemy.  Query
construction therefore raises `AttributeError` on every call, the
`except Exception` at lines 1175-1177 catches it, and the function
unconditionally returns the empty list.  The arguments are kept to express
that the result depends on neither the clock nor the database state. -/
def find_unprocessed_documents (_now : Int)
    (_db : Option (List DocumentRow × List LinkRow)) : List DocumentRow :=
  []

/-- The selection the query at main.py lines 1165-1169 is written to make,
and which the spec (§4.7) intends: documents created more than one hour
(3600 s) before `now` having zero `DocumentControlLink` rows.  The source
never reaches it — see `find_unprocessed_documents`. -/
def intended_unprocessed_selection (now : Int) (docs : List DocumentRow)
    (links : List LinkRow) : List DocumentRow :=
  docs.filter fun d =>
    decide (d.created_at < now - 3600) &&
    (links.filter fun l => l.document_id == d.id).length == 0

/-! ### The compliance scanner (src/apps/api/ai_scanner.py) -/

/-- The pydantic `Citation` model (ai_scanner.py lines 160-165). -/
structure Citation where
  document_id : String
  document_name : String
  page_num : Int
  quote : String

/-- The pydantic `RequirementResult` model (ai_scanner.py lines 167-173). -/
structure RequirementResult where
  requirement_id : String
  outcome : String
  confidence : Rat
  rationale : String
  citations : List Citation

/-- The pydantic `RecommendedAction` model (ai_scanner.py lines 175-179). -/
structure RecommendedAction where
  title : String
  detail : String
  priority : String

/-- The pydantic `Gap` model (ai_scanner.py lines 181-185); named `GapItem`
to keep the name `Gap` free for prose. -/
structure GapItem where
  requirement_id : String
  summary : String
  recommended_actions : List RecommendedAction

/-- The pydantic `ScanResponse` model (ai_scanner.py lines 187-190). -/
structure ScanResponse where
  requirements : List RequirementResult
  gaps : List GapItem

/-- Value of a decimal digit list. -/
def digitsToNat (ds : List Char) : Nat :=
  ds.foldl (fun n c => n * 10 + (c.toNat - '0'.toNat)) 0

/-- Exact rational value of a JSON number lexeme (sign, integer part,
optional fraction, optional exponent); `none` on the non-finite extensions
`NaN`/`Infinity`, which no claim exercises. -/
def ratOfLexeme (lex : String) : Option Rat :=
  let cs := lex.data
  let (sgn, cs0) : Rat × List Char :=
    match cs with
    | '-' :: r => (-1, r)
    | _ => (1, cs)
  let ip := cs0.takeWhile Char.isDigit
  let cs1 := cs0.dropWhile Char.isDigit
  if ip = [] then none
  else
    let (fp, cs2) : List Char × List Char :=
      match cs1 with
      | '.' :: r => (r.takeWhile Char.isDigit, r.dropWhile Char.isDigit)
      | _ => ([], cs1)
    let (esgn, edigits, cs3) : Int × List Char × List Char :=
      match cs2 with
      | e :: r =>
        if e = 'e' ∨ e = 'E' then
          match r with
          | '+' :: r2 => (1, r2.takeWhile Char.isDigit, r2.dropWhile Char.isDigit)
          | '-' :: r2 => (-1, r2.takeWhile Char.isDigit, r2.dropWhile Char.isDigit)
          | _ => (1, r.takeWhile Char.isDigit, r.dropWhile Char.isDigit)
        else (1, [], cs2)
      | [] => (1, [], cs2)
    if cs3 ≠ [] then none
    else
      let mant : Rat := (digitsToNat (ip ++ fp) : Rat) / (10 : Rat) ^ fp.length
      let ev := digitsToNat edigits
      some (sgn * (if esgn = 1 then mant * (10 : Rat) ^ ev else mant / (10 : Rat) ^ ev))

/-- Dictionary field access on a parsed JSON object. -/
def jget (fields : List (String × JsonValue)) (key : String) : Option JsonValue :=
  (fields.find? fun kv => kv.1 == key).map (·.2)

/-- JSON value as a pydantic `str` field. -/
def jAsStr : JsonValue → Option String
  | .str s => some s
  | _ => none

/-- JSON value as a pydantic `float` field. -/
def jAsRat : JsonValue → Option Rat
  | .num lex => ratOfLexeme lex
  | _ => none

/-- JSON value as a pydantic `int` field (an integral number). -/
def jAsInt : JsonValue → Option Int
  | .num lex =>
    match ratOfLexeme lex with
    | some q => if q.den = 1 then some q.num else none
    | none => none
  | _ => none

/-- JSON value as a list. -/
def jAsArr : JsonValue → Option (List JsonValue)
  | .arr xs => some xs
  | _ => none

/-- Pydantic validation of a `Citation` object.  Here and below the models'
required-field and basic-type checks are modelled; pydantic's laxer
coercions (numeric strings and the like) are not, and no claim depends on
them. -/
def citationOfJson (v : JsonValue) : Option Citation :=
  match v with
  | .obj fields => do
    let did ← jget fields "document_id" >>= jAsStr
    let dname ← jget fields "document_name" >>= jAsStr
    let pn ← jget fields "page_num" >>= jAsInt
    let q ← jget fields "quote" >>= jAsStr
    some ⟨did, dname, pn, q⟩
  | _ => none

/-- Pydantic validation of a `RequirementResult` object. -/
def requirementResultOfJson (v : JsonValue) : Option RequirementResult :=
  match v with
  | .obj fields => do
    let rid ← jget fields "requirement_id" >>= jAsStr
    let outcome ← jget fields "outcome" >>= jAsStr
    let conf ← jget fields "confidence" >>= jAsRat
    let rat ← jget fields "rationale" >>= jAsStr
    let cits ← jget fields "citations" >>= jAsArr
    let cits' ← cits.mapM citationOfJson
    some ⟨rid, outcome, conf, rat, cits'⟩
  | _ => none

/-- Pydantic validation of a `RecommendedAction` object. -/
def recommendedActionOfJson (v : JsonValue) : Option RecommendedAction :=
  match v with
  | .obj fields => do
    let t ← jget fields "title" >>= jAsStr
    let d ← jget fields "detail" >>= jAsStr
    let p ← jget fields "priority" >>= jAsStr
    some ⟨t, d, p⟩
  | _ => none

/-- Pydantic validation of a `Gap` object. -/
def gapOfJson (v : JsonValue) : Option GapItem :=
  match v with
  | .obj fields => do
    let rid ← jget fields "requirement_id" >>= jAsStr
    let s ← jget fields "summary" >>= jAsStr
    let acts ← jget fields "recommended_actions" >>= jAsArr
    let acts' ← acts.mapM recommendedActionOfJson
    some ⟨rid, s, acts'⟩
  | _ => none

/-- Pydantic validation `ScanResponse(**json_data)`. -/
def scanResponseOfJson (v : JsonValue) : Option ScanResponse :=
  match v with
  | .obj fields => do
    let reqs ← jget fields "requirements" >>= jAsArr
    let reqs' ← reqs.mapM requirementResultOfJson
    let gaps ← jget fields "gaps" >>= jAsArr
    let gaps' ← gaps.mapM gapOfJson
    some ⟨reqs', gaps'⟩
  | _ => none

/-- The placeholder response `_call_ollama` builds when the model's text is
not JSON (ai_scanner.py lines 460-474). -/
def fallbackScanResponse : ScanResponse :=
  { requirements := []
    gaps := [{ requirement_id := "unknown"
               summary := "Failed to parse AI response - please try again"
               recommended_actions := [{
                 title := "Retry Analysis"
                 detail := "The AI response could not be parsed. Try running the scan again."
                 priority := "MEDIUM" }] }] }

/-- The response-parsing tail of `ComplianceScanner._call_ollama`
(ai_scanner.py lines 453-474), given the `response` field of a successful
HTTP call: the stripped text is `json.loads`-ed; a `JSONDecodeError` yields
the placeholder-gap response, while a pydantic validation failure raises,
which the outer handler (lines 476-478) re-raises to `scan_control`. -/
def call_ollama_parse (responseText : String) : Except String ScanResponse :=
  match json_loads (pyStrip responseText) with
  | none => .ok fallbackScanResponse
  | some v =>
    match scanResponseOfJson v with
    | some r => .ok r
    | none => .error "ValidationError"

/-- The OpenAI response parsing in `scan_control` (ai_scanner.py lines
248-256): stripped content through `json.loads` and pydantic validation,
with a catch-all producing the empty `ScanResponse`. -/
def openai_parse_scan_response (responseText : String) : ScanResponse :=
  match json_loads (pyStrip responseText) with
  | some v =>
    match scanResponseOfJson v with
    | some r => r
    | none => ⟨[], []⟩
  | none => ⟨[], []⟩

/-- The plain-dict result `scan_control` hands to the worker. -/
structure ScanResultDict where
  requirements : List RequirementResult
  gaps : List GapItem

/-- The dict-conversion loops of `scan_control` (ai_scanner.py lines
258-293), rebuilding each record field by field. -/
def toResultDict (r : ScanResponse) : ScanResultDict :=
  { requirements := r.requirements.map fun req =>
      { requirement_id := req.requirement_id
        outcome := req.outcome
        confidence := req.confidence
        rationale := req.rationale
        citations := req.citations.map fun c =>
          { document_id := c.document_id
            document_name := c.document_name
            page_num := c.page_num
            quote := c.quote } }
    gaps := r.gaps.map fun gap =>
      { requirement_id := gap.requirement_id
        summary := gap.summary
        recommended_actions := gap.recommended_actions.map fun a =>
          { title := a.title, detail := a.detail, priority := a.priority } } }

/-- `ComplianceScanner.scan_control` (ai_scanner.py lines 201-304) from the
point the provider returned text: the Ollama branch parses via
`_call_ollama` (a raised validation error reaches the catch-all at lines
298-304, which returns the empty result), the OpenAI branch parses inline
with its own catch-all. -/
def scan_control_parse (providerIsOllama : Bool) (responseText : String) :
    ScanResultDict :=
  if providerIsOllama then
    match call_ollama_parse responseText with
    | .ok r => toResultDict r
    | .error _ => { requirements := [], gaps := [] }
  else
    toResultDict (openai_parse_scan_response responseText)

/-! ### The scan prompt builder (`_build_scan_prompt`, ai_scanner.py 306-391) -/

/-- The columns of a `Requirement` row the prompt uses (models.py 62-74). -/
structure RequirementInfo where
  id : String
  req_code : String
  text : String
  guidance : Option String
  maturity_level : Int

/-- The columns of a `Control` row the prompt uses. -/
structure ControlInfo where
  code : String
  title : String
  description : String

/-- An `evidence_texts` entry as the worker assembles it
(worker_tasks.py lines 145-167). -/
structure EvidenceText where
  document_id : String
  document_name : String
  page_num : Int
  text : String

/-- Header of the scan prompt (the f-string at ai_scanner.py 311-320). -/
def scanPromptHeader (control : ControlInfo) : String :=
  "\nCOMPLIANCE SCANNING TASK\n\nYou are analyzing evidence documents to determine compliance with the security control \""
    ++ control.code ++ ": " ++ control.title
    ++ "\".\n\nCONTROL DESCRIPTION:\n" ++ control.description
    ++ "\n\nREQUIREMENTS TO EVALUATE:\n"

/-- One requirement's lines (the loop at ai_scanner.py 323-329), including
Python's truthiness on the nullable `guidance` column: `None` and the empty
string both skip the guidance line. -/
def requirementSection (req : RequirementInfo) : String :=
  "\nRequirement ID: " ++ req.id
    ++ "\n" ++ req.req_code ++ ": " ++ req.text
    ++ (match req.guidance with
        | some g => if g = "" then "" else "\n  Guidance: " ++ g
        | none => "")
    ++ "\n  Maturity Level: " ++ toString req.maturity_level
    ++ "\n"

/-- One evidence excerpt's lines (the loop at ai_scanner.py 334-340), with
the 15,000-character truncation and its marker; `i` is the 0-based
`enumerate` index. -/
def evidenceBlock (i : Nat) (e : EvidenceText) : String :=
  "\nDocument " ++ toString (i + 1) ++ ": " ++ e.document_name
    ++ " (Page " ++ toString e.page_num ++ ")\n"
    ++ "Content: "
    ++ (if e.text.length > 15000 then e.text.take 15000 ++ "... [truncated]"
        else e.text)
    ++ "\n"

/-- The evidence blocks in order, numbering from `i`. -/
def evidenceBlocks : Nat → List EvidenceText → String
  | _, [] => ""
  | i, e :: rest => evidenceBlock i e ++ evidenceBlocks (i + 1) rest

/-- The constant instruction tail of the prompt (ai_scanner.py 343-389),
transcribed line by line (trailing spaces included). -/
def scanPromptInstructions : String :=
  "\nANALYSIS INSTRUCTIONS:\n"
    ++ "\n1. For each requirement, analyze the evidence and determine:\n"
    ++ "   - OUTCOME: PASS (fully satisfies), PARTIAL (partially satisfies), FAIL (contradicts), or NOT_FOUND (no evidence)\n"
    ++ "   - CONFIDENCE: 0.0 to 1.0 based on strength and clarity of evidence\n"
    ++ "   - RATIONALE: Clear explanation of your assessment\n"
    ++ "   - CITATIONS: Direct quotes from evidence (max 30 words each)\n"
    ++ "\n2. For any requirement that is PARTIAL, FAIL, or NOT_FOUND, identify gaps and recommend specific actions.\n"
    ++ "\n3. BE EXTREMELY STRICT with confidence scores. Use the following guidelines:\n"
    ++ "   - 0.9-1.0: Only for PERFECT, unambiguous, comprehensive evidence with explicit policy statements\n"
    ++ "   - 0.7-0.8: Strong evidence with clear documentation and multiple supporting sources\n"
    ++ "   - 0.5-0.6: Weak or partial evidence, screenshots without context, or ambiguous documentation\n"
    ++ "   - 0.3-0.4: Minimal evidence, uncertain relevance, or requires significant interpretation\n"
    ++ "   - 0.0-0.2: No clear evidence or highly questionable relevance\n"
    ++ "\n4. Screenshots alone should receive LOW confidence (0.3-0.5) unless they clearly show comprehensive compliance\n"
    ++ "   with context and supporting documentation.\n"
    ++ "\n5. Be HIGHLY CRITICAL: If evidence is unclear, incomplete, ambiguous, or requires assumptions, assign LOW confidence.\n"
    ++ "\n6. Never hallucinate - only cite evidence that actually exists in the provided documents.\n"
    ++ "\n7. Require EXPLICIT, DETAILED evidence. Generic statements or vague references should receive very low scores.\n"
    ++ "\nYou must respond with valid JSON only, following this exact schema:\n"
    ++ "\x7b\n"
    ++ "  \"requirements\": [\n"
    ++ "    \x7b\n"
    ++ "      \"requirement_id\": \"string (use the UUID Requirement ID provided above)\",\n"
    ++ "      \"outcome\": \"PASS|PARTIAL|FAIL|NOT_FOUND\", \n"
    ++ "      \"confidence\": 0.0-1.0,\n"
    ++ "      \"rationale\": \"string explanation\",\n"
    ++ "      \"citations\": [\x7b\"document_id\": \"string\", \"document_name\": \"string\", \"page_num\": 1, \"quote\": \"string max 30 words\"\x7d]\n"
    ++ "    \x7d\n"
    ++ "  ],\n"
    ++ "  \"gaps\": [\n"
    ++ "    \x7b\n"
    ++ "      \"requirement_id\": \"string\",\n"
    ++ "      \"summary\": \"string describing what is missing\", \n"
    ++ "      \"recommended_actions\": [\x7b\"title\": \"string\", \"detail\": \"string\", \"priority\": \"HIGH|MEDIUM|LOW\"\x7d]\n"
    ++ "    \x7d\n"
    ++ "  ]\n"
    ++ "\x7d\n"

/-- `ComplianceScanner._build_scan_prompt` (ai_scanner.py lines 306-391). -/
def build_scan_prompt (control : ControlInfo) (requirements : List RequirementInfo)
    (evidenceTexts : List EvidenceText) : String :=
  scanPromptHeader control
    ++ (requirements.map requirementSection).foldl (· ++ ·) ""
    ++ "\nEVIDENCE DOCUMENTS:\n"
    ++ evidenceBlocks 0 evidenceTexts
    ++ scanPromptInstructions

/-! ### The scan worker (`process_scan`, worker_tasks.py 66-251) -/

/-- The mutable columns of a `Scan` row (models.py lines 159-173). -/
structure ScanRow where
  status : String
  model : String
  prompt_version : String
  progress_percentage : Int
  current_step : String
  total_requirements : Int
  processed_requirements : Int

/-- The `Settings` columns the worker reads for the model name
(worker_tasks.py lines 82-91). -/
structure WorkerSettings where
  ai_provider : String
  ollama_model : String
  openai_model : Option String

/-- Model-name resolution (worker_tasks.py lines 82-91);
`settings.openai_model or 'gpt-4o-mini'` treats `None` and the empty string
as absent. -/
def resolveModelName (settings : Option WorkerSettings) : String :=
  match settings with
  | some s =>
    if s.ai_provider = "ollama" then s.ollama_model ++ " (Ollama)"
    else if s.ai_provider = "openai" then
      match s.openai_model with
      | some m => if m = "" then "gpt-4o-mini" else m
      | none => "gpt-4o-mini"
    else "gpt-4"
  | none => "gpt-4"

/-- An evidence link row as the worker uses it: the linked document's id and
filename (through the `document` relationship). -/
structure EvidenceLinkRow where
  document_id : String
  document_filename : String

/-- A `DocumentPage` row (models.py lines 103-118); `text` is nullable and
filtered through Python truthiness (`if page.text:`). -/
structure PageRow where
  page_num : Int
  text : Option String

/-- The evidence-gathering loop body (worker_tasks.py lines 140-167, the
same shape for manual and AI links): every non-empty page text of every
linked document becomes an `evidence_texts` entry. -/
def gatherEvidence (pages : String → List PageRow)
    (links : List EvidenceLinkRow) : List EvidenceText :=
  links.flatMap fun link =>
    (pages link.document_id).filterMap fun p =>
      match p.text with
      | some t => if t = "" then none else some ⟨link.document_id, link.document_filename, p.page_num, t⟩
      | none => none

/-- A stored `ScanResult` row (worker_tasks.py lines 192-199; the source
stringifies the confidence with `str(...)`, a rendering detail not
modelled). -/
structure ScanResultRow where
  requirement_id : String
  outcome : String
  confidence : Rat
  rationale : String
  citations : List Citation

/-- A stored `Gap` row (worker_tasks.py lines 218-223; the JSON
serialization of the actions is a rendering detail not modelled). -/
structure GapRow where
  requirement_id : String
  gap_summary : String
  recommended_actions : List RecommendedAction

/-- What one run of `process_scan` leaves behind: the scan row's final
state, whether the AI scanner was invoked, and the stored result and gap
rows. -/
structure ProcessScanOutcome where
  scan : ScanRow
  scannerCalled : Bool
  storedResults : List ScanResultRow
  storedGaps : List GapRow

/-- `process_scan` (worker_tasks.py lines 66-251) on a scan row that exists:
set the processing state, count linked evidence, and either exit early with
`completed`/`No evidence to scan` when there is none, or gather page texts,
run the scanner and store its rows.  The scanner is passed in, mirroring
the call to `compliance_scanner.scan_control`; the exception path (lines
242-249) is outside every claim and not modelled. -/
def process_scan (settings : Option WorkerSettings) (scan0 : ScanRow)
    (requirements : List RequirementInfo)
    (manualEvidenceLinks aiEvidenceLinks : List EvidenceLinkRow)
    (pages : String → List PageRow)
    (scanner : List EvidenceText → ScanResultDict) : ProcessScanOutcome :=
  let modelName := resolveModelName settings
  let scan1 : ScanRow :=
    { scan0 with
      status := "processing", model := modelName, prompt_version := "v1.0"
      progress_percentage := 0, current_step := "Initializing scan..."
      total_requirements := requirements.length, processed_requirements := 0 }
  let totalEvidence := manualEvidenceLinks.length + aiEvidenceLinks.length
  if totalEvidence = 0 then
    { scan := { scan1 with
        status := "completed", progress_percentage := 100
        current_step := "No evidence to scan" }
      scannerCalled := false, storedResults := [], storedGaps := [] }
  else
    let scan2 := { scan1 with
      progress_percentage := 10
      current_step := "Gathering evidence from " ++ toString totalEvidence
        ++ " documents..." }
    let evidenceTexts := gatherEvidence pages manualEvidenceLinks
      ++ gatherEvidence pages aiEvidenceLinks
    let scan3 := { scan2 with
      progress_percentage := 20
      current_step := "Analyzing " ++ toString requirements.length
        ++ " requirements with AI..." }
    let scanResults := scanner evidenceTexts
    let scan4 := { scan3 with
      progress_percentage := 80, current_step := "Storing scan results..." }
    { scan := { scan4 with
        status := "completed", progress_percentage := 100
        current_step := "Scan completed"
        processed_requirements := requirements.length }
      scannerCalled := true
      storedResults := scanResults.requirements.map fun r =>
        { requirement_id := r.requirement_id, outcome := r.outcome
          confidence := r.confidence, rationale := r.rationale
          citations := r.citations }
      storedGaps := scanResults.gaps.map fun g =>
        { requirement_id := g.requirement_id, gap_summary := g.summary
          recommended_actions := g.recommended_actions } }

/-! ## Supporting lemmas -/

theorem string_nil_append (s : String) : "" ++ s = s := by
  cases s
  rfl

theorem exists_split_of_get? {α : Type} :
    ∀ (l : List α) (i : Nat) (a : α), l.get? i = some a →
      ∃ l1 l2, l = l1 ++ a :: l2 ∧ l1.length = i := by
  intro l
  induction l with
  | nil =>
    intro i a h
    simp at h
  | cons x xs ih =>
    intro i a h
    cases i with
    | zero =>
      rw [List.get?_cons_zero] at h
      injection h with h
      exact ⟨[], xs, by simp [h], rfl⟩
    | succ n =>
      rw [List.get?_cons_succ] at h
      obtain ⟨l1, l2, heq, hlen⟩ := ih n a h
      exact ⟨x :: l1, l2, by rw [heq]; rfl, by simp [hlen]⟩

theorem evidenceBlocks_append (e : EvidenceText) :
    ∀ (l1 : List EvidenceText) (i : Nat) (l2 : List EvidenceText),
      evidenceBlocks i (l1 ++ e :: l2)
        = evidenceBlocks i l1 ++ (evidenceBlock (i + l1.length) e
            ++ evidenceBlocks (i + l1.length + 1) l2) := by
  intro l1
  induction l1 with
  | nil =>
    intro i l2
    simp only [List.nil_append, List.length_nil, Nat.add_zero, evidenceBlocks]
    rw [string_nil_append]
  | cons x xs ih =>
    intro i l2
    have h1 : i + 1 + xs.length = i + (x :: xs).length := by
      simp
      omega
    show evidenceBlock i x ++ evidenceBlocks (i + 1) (xs ++ e :: l2)
      = (evidenceBlock i x ++ evidenceBlocks (i + 1) xs)
        ++ (evidenceBlock (i + (x :: xs).length) e
            ++ evidenceBlocks (i + (x :: xs).length + 1) l2)
    rw [ih (i + 1) l2, h1, String.append_assoc]

theorem pyStripList_contiguous (l : List Char) : pyStripList l <:+: l := by
  have h1 : l.dropWhile isPySpace <:+ l := List.dropWhile_suffix isPySpace
  have h2 : (l.dropWhile isPySpace).reverse.dropWhile isPySpace
      <:+ (l.dropWhile isPySpace).reverse := List.dropWhile_suffix isPySpace
  have h3 : pyStripList l <+: l.dropWhile isPySpace := by
    rw [← List.reverse_suffix]
    simpa [pyStripList] using h2
  exact h3.isInfix.trans h1.isInfix

theorem pyStripList_eq_self (l : List Char) (c d : Char)
    (hh : l.head? = some c) (hc : isPySpace c = false)
    (hl : l.getLast? = some d) (hd : isPySpace d = false) :
    pyStripList l = l := by
  unfold pyStripList
  have h1 : l.dropWhile isPySpace = l := by
    cases l with
    | nil => rfl
    | cons x xs =>
      simp at hh
      rw [List.dropWhile_cons, if_neg]
      rw [hh]
      simp [hc]
  rw [h1]
  have h2 : l.reverse.dropWhile isPySpace = l.reverse := by
    have hrev : l.reverse.head? = some d := by rw [List.head?_reverse, hl]
    cases hr : l.reverse with
    | nil => rfl
    | cons y ys =>
      rw [hr] at hrev
      simp at hrev
      rw [List.dropWhile_cons, if_neg]
      rw [hrev]
      simp [hd]
  rw [h2, List.reverse_reverse]

theorem head_dropWhile_false {α : Type} (p : α → Bool) :
    ∀ (l : List α) (c : α) (cs : List α), l.dropWhile p = c :: cs → p c = false := by
  intro l
  induction l with
  | nil =>
    intro c cs h
    simp at h
  | cons x xs ih =>
    intro c cs h
    rw [List.dropWhile_cons] at h
    by_cases hp : p x
    · rw [if_pos hp] at h
      exact ih c cs h
    · rw [if_neg hp] at h
      injection h with h1 _
      subst h1
      simpa using hp

theorem braceScanLen_spec :
    ∀ (cs : List Char) (count : Int) (k : Nat),
      braceScanLen cs count = some k →
      1 ≤ k ∧ k ≤ cs.length ∧ ∃ pre, cs.take k = pre ++ ['\x7d'] := by
  intro cs
  induction cs with
  | nil =>
    intro count k h
    simp [braceScanLen] at h
  | cons c rest ih =>
    intro count k h
    unfold braceScanLen at h
    by_cases h1 : c = '\x7b'
    · rw [if_pos h1] at h
      cases hr : braceScanLen rest (count + 1) with
      | none => rw [hr] at h; simp at h
      | some k' =>
        rw [hr] at h
        simp at h
        obtain ⟨hk1, hk2, pre, hpre⟩ := ih (count + 1) k' hr
        subst h
        refine ⟨by omega, by simp; omega, c :: pre, ?_⟩
        rw [List.take_succ_cons, hpre]
        rfl
    · rw [if_neg h1] at h
      by_cases h2 : c = '\x7d'
      · rw [if_pos h2] at h
        by_cases h3 : count - 1 = 0
        · rw [if_pos h3] at h
          simp at h
          subst h
          exact ⟨le_refl 1, by simp, [], by simp [h2]⟩
        · rw [if_neg h3] at h
          cases hr : braceScanLen rest (count - 1) with
          | none => rw [hr] at h; simp at h
          | some k' =>
            rw [hr] at h
            simp at h
            obtain ⟨hk1, hk2, pre, hpre⟩ := ih (count - 1) k' hr
            subst h
            refine ⟨by omega, by simp; omega, c :: pre, ?_⟩
            rw [List.take_succ_cons, hpre]
            rfl
      · rw [if_neg h2] at h
        cases hr : braceScanLen rest count with
        | none => rw [hr] at h; simp at h
        | some k' =>
          rw [hr] at h
          simp at h
          obtain ⟨hk1, hk2, pre, hpre⟩ := ih count k' hr
          subst h
          refine ⟨by omega, by simp; omega, c :: pre, ?_⟩
          rw [List.take_succ_cons, hpre]
          rfl

/-! ## Theorems for the claims -/

/-- C1: when the document row exists, the suggested control is found and no
link exists yet for the pair, a DocumentControlLink is created if and only
if the best suggestion's confidence is at least the configured minimum
threshold (0.90 by default when no settings row exists); below the
threshold the link table is unchanged (the attempt is only logged), and for
a fixed confidence, lowering the threshold can never destroy a link that a
higher threshold admitted — raising it above the confidence flips the
outcome from linked to not linked and never the reverse. -/
theorem c1_confidence_gated_linking (settings : Option SettingsRow)
    (controls : List ControlRow) (links : List LinkRow) (documentId : String)
    (best : Suggestion) (rest : List Suggestion) (control : ControlRow)
    (hfind : controls.find? (fun c => c.code == best.control_code) = some control)
    (hnew : links.find? (fun l =>
      l.document_id == documentId && l.control_id == control.id) = none) :
    (resolveMinThreshold settings ≤ best.confidence →
      storeAiResult (resolveMinThreshold settings) true controls links documentId
          (best :: rest)
        = links ++ [⟨documentId, control.id, best.confidence, best.reasoning⟩]) ∧
    (best.confidence < resolveMinThreshold settings →
      storeAiResult (resolveMinThreshold settings) true controls links documentId
        (best :: rest) = links) ∧
    (settings = none → resolveMinThreshold settings = 9 / 10) ∧
    (∀ t t' : Rat, t ≤ t' →
      storeAiResult t' true controls links documentId (best :: rest)
        = links ++ [⟨documentId, control.id, best.confidence, best.reasoning⟩] →
      storeAiResult t true controls links documentId (best :: rest)
        = links ++ [⟨documentId, control.id, best.confidence, best.reasoning⟩]) := by
  have hstore : ∀ t : Rat,
      storeAiResult t true controls links documentId (best :: rest)
        = if best.confidence ≥ t then
            links ++ [⟨documentId, control.id, best.confidence, best.reasoning⟩]
          else links := by
    intro t
    simp [storeAiResult, hfind, hnew]
  refine ⟨?_, ?_, ?_, ?_⟩
  · intro h
    rw [hstore, if_pos h]
  · intro h
    rw [hstore, if_neg (not_le.mpr h)]
  · rintro rfl
    norm_num [resolveMinThreshold]
  · intro t t' htt' h'
    rw [hstore] at h' ⊢
    by_cases hc : best.confidence ≥ t'
    · exact if_pos (le_trans htt' hc)
    · rw [if_neg hc] at h'
      have := congrArg List.length h'
      simp at this

/-- C1 witness: with no settings row (threshold 0.90) and a fresh pair, a
0.95-confidence suggestion materializes exactly one link. -/
theorem c1_confidence_gated_linking_witness :
    storeAiResult (resolveMinThreshold none) true [⟨"ctrl-1", "EE-8"⟩] []
        "doc-1" [⟨"EE-8", 0.95, "strong match"⟩]
      = [⟨"doc-1", "ctrl-1", 0.95, "strong match"⟩] :=
  (c1_confidence_gated_linking none [⟨"ctrl-1", "EE-8"⟩] [] "doc-1"
      ⟨"EE-8", 0.95, "strong match"⟩ [] ⟨"ctrl-1", "EE-8"⟩ rfl rfl).1
    (by norm_num [resolveMinThreshold])

/-- C2: in dual-validation mode with two provider results, identical control
codes leave exactly one suggestion whose confidence is the minimum of the
two; differing control codes clear the suggestion list, after which the
link-materialization step stores nothing. -/
theorem c2_dual_validation_consensus (sugg : List Suggestion)
    (r1 r2 : Suggestion) (fmt : Suggestion → Suggestion → String) :
    (r1.control_code = r2.control_code →
      dualVisionMerge sugg [r1, r2] fmt
        = [⟨r1.control_code, min r1.confidence r2.confidence, fmt r1 r2⟩]) ∧
    (r1.control_code ≠ r2.control_code →
      dualVisionMerge sugg [r1, r2] fmt = [] ∧
      ∀ (thr : Rat) (dexists : Bool) (controls : List ControlRow)
        (links : List LinkRow) (docId : String),
        storeAiResult thr dexists controls links docId
          (dualVisionMerge sugg [r1, r2] fmt) = links) := by
  constructor
  · intro h
    simp [dualVisionMerge, h]
  · intro h
    have hm : dualVisionMerge sugg [r1, r2] fmt = [] := by
      simp [dualVisionMerge, h]
    exact ⟨hm, fun thr dexists controls links docId => by rw [hm]; rfl⟩

/-- C2 witness: agreeing results with confidences 0.95 and 0.80 survive as
one suggestion with confidence 0.80; disagreeing control codes yield an
empty suggestion list. -/
theorem c2_dual_validation_consensus_witness :
    dualVisionMerge [] [⟨"EE-1", 0.95, "a"⟩, ⟨"EE-1", 0.80, "b"⟩]
        (fun _ _ => "dual") = [⟨"EE-1", 0.80, "dual"⟩] ∧
    dualVisionMerge [] [⟨"EE-1", 0.95, "a"⟩, ⟨"EE-2", 0.80, "b"⟩]
        (fun _ _ => "dual") = [] := by
  constructor
  · have h := (c2_dual_validation_consensus []
        ⟨"EE-1", 0.95, "a"⟩ ⟨"EE-1", 0.80, "b"⟩ (fun _ _ => "dual")).1 rfl
    rw [h]
    norm_num [min_def]
  · exact ((c2_dual_validation_consensus []
        ⟨"EE-1", 0.95, "a"⟩ ⟨"EE-2", 0.80, "b"⟩ (fun _ _ => "dual")).2
      (by decide)).1

/-- C5 counterexample: on the concrete response below (a prose-embedded
object followed by a fenced JSON block), `_extract_json_from_response`
returns the pattern-extracted object, while the spec's stated order —
fenced-block extraction before pattern-guided extraction — would return
the fenced object; the code therefore does not apply the strategies in the
spec's stated order. -/
theorem c5_counterexample :
    extract_json_from_response
        "Sure! The document \x7b\"document_type\": \"policy\"\x7d is shown. ```json\n\x7b\"a\": \x7b\"b\": 2\x7d\x7d\n``` done"
      = some (.obj [("document_type", .str "policy")]) ∧
    spec_ordered_extract
        "Sure! The document \x7b\"document_type\": \"policy\"\x7d is shown. ```json\n\x7b\"a\": \x7b\"b\": 2\x7d\x7d\n``` done"
      = some (.obj [("a", .obj [("b", .num "2")])]) ∧
    (JsonValue.obj [("document_type", .str "policy")])
      ≠ (JsonValue.obj [("a", .obj [("b", .num "2")])]) :=
  ⟨rfl, rfl, by simp⟩

/-- C5 (amended): `_extract_json_from_response` applies its recovery
strategies in the order (1) direct parse of the whole trimmed text,
accepted only when it yields an object, (2) pattern-guided
regular-expression extraction, (3) fenced-code-block extraction, (4)
re-parse of the whole text accepting any JSON value, (5)
first-`{`-to-last-`}` slice — there is no brace-matched nesting-depth
stage — returning the result of the first stage that succeeds, and `none`
exactly when the input is empty or all five stages fail. -/
theorem c5_extractor_stage_order (s : String) :
    extract_json_from_response s =
      (if s = "" then none
       else firstSomeStage
         [stageDirectDict, stagePatterns, stageCodeBlocks, stageWholeAny, stageSlice]
         (pyStrip s)) ∧
    (s ≠ "" →
      (extract_json_from_response s = none ↔
        stageDirectDict (pyStrip s) = none ∧ stagePatterns (pyStrip s) = none ∧
        stageCodeBlocks (pyStrip s) = none ∧ stageWholeAny (pyStrip s) = none ∧
        stageSlice (pyStrip s) = none)) := by
  by_cases hs : s = ""
  · subst hs
    exact ⟨rfl, fun h => absurd rfl h⟩
  · constructor
    · rw [if_neg hs]
      unfold extract_json_from_response firstSomeStage
      rw [if_neg hs]
      cases h1 : stageDirectDict (pyStrip s) <;>
        cases h2 : stagePatterns (pyStrip s) <;>
          cases h3 : stageCodeBlocks (pyStrip s) <;>
            cases h4 : stageWholeAny (pyStrip s) <;>
              cases h5 : stageSlice (pyStrip s) <;>
                simp [firstSomeStage, h1, h2, h3, h4, h5]
    · intro _
      unfold extract_json_from_response
      rw [if_neg hs]
      cases h1 : stageDirectDict (pyStrip s) <;>
        cases h2 : stagePatterns (pyStrip s) <;>
          cases h3 : stageCodeBlocks (pyStrip s) <;>
            cases h4 : stageWholeAny (pyStrip s) <;>
              simp [h1, h2, h3, h4]

/-- C5 witness: on an input with no braces at all, every stage fails and
the extractor returns the no-structured-data signal. -/
theorem c5_extractor_stage_order_witness :
    extract_json_from_response "no structured data at all" = none ↔
      stageDirectDict (pyStrip "no structured data at all") = none ∧
      stagePatterns (pyStrip "no structured data at all") = none ∧
      stageCodeBlocks (pyStrip "no structured data at all") = none ∧
      stageWholeAny (pyStrip "no structured data at all") = none ∧
      stageSlice (pyStrip "no structured data at all") = none :=
  (c5_extractor_stage_order "no structured data at all").2 (by decide)

/-- C6: the linker never duplicates a (document, control) pair — when a link
row for the selected pair already exists the table is returned unchanged,
the uniqueness invariant of the `idx_doc_control_unique` index is preserved
by every run, and running the step twice equals running it once. -/
theorem c6_idempotent_linking (thr : Rat) (dexists : Bool)
    (controls : List ControlRow) (links : List LinkRow) (documentId : String)
    (sugg : List Suggestion) :
    (∀ best rest control, sugg = best :: rest →
      controls.find? (fun c => c.code == best.control_code) = some control →
      (∃ l ∈ links, l.document_id = documentId ∧ l.control_id = control.id) →
      storeAiResult thr dexists controls links documentId sugg = links) ∧
    (DocumentControlLinkUnique links →
      DocumentControlLinkUnique
        (storeAiResult thr dexists controls links documentId sugg)) ∧
    storeAiResult thr dexists controls
        (storeAiResult thr dexists controls links documentId sugg) documentId sugg
      = storeAiResult thr dexists controls links documentId sugg := by
  refine ⟨?_, ?_, ?_⟩
  · rintro best rest control rfl hfind hex
    have hsome : (links.find? fun l =>
        l.document_id == documentId && l.control_id == control.id).isSome := by
      rw [List.find?_isSome]
      obtain ⟨l, hl, h1, h2⟩ := hex
      exact ⟨l, hl, by simp [h1, h2]⟩
    cases dexists <;> simp [storeAiResult, hfind, hsome]
  · intro huniq
    match sugg with
    | [] => exact huniq
    | best :: rest =>
      cases dexists with
      | false => exact huniq
      | true =>
        cases hfind : controls.find? (fun c => c.code == best.control_code) with
        | none => simpa [storeAiResult, hfind] using huniq
        | some control =>
          by_cases hthr : best.confidence ≥ thr
          · cases hfound : links.find? (fun l =>
                l.document_id == documentId && l.control_id == control.id) with
            | some l => simpa [storeAiResult, hfind, hthr, hfound] using huniq
            | none =>
              have hall := List.find?_eq_none.mp hfound
              have hgoal : DocumentControlLinkUnique (links ++
                  [⟨documentId, control.id, best.confidence, best.reasoning⟩]) := by
                rw [DocumentControlLinkUnique, List.pairwise_append]
                refine ⟨huniq, List.pairwise_singleton _ _, ?_⟩
                intro a ha b hb hcontra
                simp only [List.mem_singleton] at hb
                subst hb
                obtain ⟨h1, h2⟩ := hcontra
                exact (by simpa using hall a ha :
                  a.document_id = documentId → ¬a.control_id = control.id) h1 h2
              simpa [storeAiResult, hfind, hthr, hfound] using hgoal
          · simpa [storeAiResult, hfind, hthr] using huniq
  · match sugg with
    | [] => rfl
    | best :: rest =>
      cases dexists with
      | false => rfl
      | true =>
        cases hfind : controls.find? (fun c => c.code == best.control_code) with
        | none => simp [storeAiResult, hfind]
        | some control =>
          by_cases hthr : best.confidence ≥ thr
          · cases hfound : links.find? (fun l =>
                l.document_id == documentId && l.control_id == control.id) with
            | some l => simp [storeAiResult, hfind, hthr, hfound]
            | none =>
              have hsome : ((links ++
                  [(⟨documentId, control.id, best.confidence, best.reasoning⟩ : LinkRow)]).find?
                    (fun l =>
                      l.document_id == documentId && l.control_id == control.id)).isSome := by
                rw [List.find?_isSome]
                exact ⟨⟨documentId, control.id, best.confidence, best.reasoning⟩,
                  List.mem_append_right _ (List.mem_singleton_self _), by simp⟩
              simp [storeAiResult, hfind, hthr, hfound, hsome]
          · simp [storeAiResult, hfind, hthr]

/-- C6 witness: with a link for the pair already present, a re-run with a
high-confidence suggestion leaves the link table unchanged. -/
theorem c6_idempotent_linking_witness :
    storeAiResult 0.9 true [⟨"ctrl-1", "EE-8"⟩]
        [⟨"doc-1", "ctrl-1", 0.92, "prior run"⟩] "doc-1"
        [⟨"EE-8", 0.95, "re-run"⟩]
      = [⟨"doc-1", "ctrl-1", 0.92, "prior run"⟩] :=
  (c6_idempotent_linking 0.9 true [⟨"ctrl-1", "EE-8"⟩]
      [⟨"doc-1", "ctrl-1", 0.92, "prior run"⟩] "doc-1"
      [⟨"EE-8", 0.95, "re-run"⟩]).1
    ⟨"EE-8", 0.95, "re-run"⟩ [] ⟨"ctrl-1", "EE-8"⟩ rfl rfl
    ⟨⟨"doc-1", "ctrl-1", 0.92, "prior run"⟩, List.mem_singleton_self _, rfl, rfl⟩

/-- C3: the collapse step of the analysis entry point returns a list of
length 0 or 1 unchanged, and for two or more suggestions with pairwise
distinct confidences it returns exactly one element — the suggestion whose
confidence is strictly highest. -/
theorem c3_highest_confidence_collapse (result : List Suggestion) :
    (result.length ≤ 1 → safe_analyze_collapse result = result) ∧
    (2 ≤ result.length →
      result.Pairwise (fun a b => a.confidence ≠ b.confidence) →
      ∃ top, safe_analyze_collapse result = [top] ∧ top ∈ result ∧
        ∀ s ∈ result, s = top ∨ s.confidence < top.confidence) := by
  constructor
  · intro h
    unfold safe_analyze_collapse
    rw [if_neg (by omega)]
  · intro hlen hdist
    unfold safe_analyze_collapse
    rw [if_pos (by omega)]
    have hperm := result.mergeSort_perm (fun a b => decide (b.confidence ≤ a.confidence))
    have hsorted := @List.sorted_mergeSort Suggestion
      (fun a b : Suggestion => decide (b.confidence ≤ a.confidence))
      (fun a b c hab hbc => by
        simp only [decide_eq_true_eq] at *
        exact le_trans hbc hab)
      (fun a b => by
        simp only [Bool.or_eq_true, decide_eq_true_eq]
        exact le_total b.confidence a.confidence)
      result
    cases hms : result.mergeSort (fun a b => decide (b.confidence ≤ a.confidence)) with
    | nil =>
      have hlen0 := hperm.length_eq
      rw [hms] at hlen0
      simp at hlen0
      omega
    | cons top tail =>
      refine ⟨top, rfl, ?_, ?_⟩
      · exact hperm.mem_iff.mp (by rw [hms]; exact List.mem_cons_self _ _)
      · intro s hs
        by_cases hst : s = top
        · exact Or.inl hst
        · right
          have hsin : s ∈ top :: tail := by
            rw [← hms]
            exact hperm.mem_iff.mpr hs
          rcases List.mem_cons.mp hsin with heq | htail
          · exact absurd heq hst
          · have hsorted' := hsorted
            rw [hms] at hsorted'
            have hle : s.confidence ≤ top.confidence := by
              have := (List.pairwise_cons.mp hsorted').1 s htail
              simpa using this
            have hdist' : (top :: tail).Pairwise
                (fun a b => a.confidence ≠ b.confidence) := by
              rw [← hms]
              exact (hperm.pairwise_iff fun h => Ne.symm h).mpr hdist
            have hne := (List.pairwise_cons.mp hdist').1 s htail
            exact lt_of_le_of_ne hle (Ne.symm hne)

/-- C3 witness: three suggestions with distinct confidences collapse to the
single highest-confidence one. -/
theorem c3_highest_confidence_collapse_witness :
    ∃ top, safe_analyze_collapse
        [⟨"EE-1", 0.5, "x"⟩, ⟨"EE-2", 0.9, "y"⟩, ⟨"EE-3", 0.7, "z"⟩] = [top] ∧
      top ∈ ([⟨"EE-1", 0.5, "x"⟩, ⟨"EE-2", 0.9, "y"⟩, ⟨"EE-3", 0.7, "z"⟩] :
        List Suggestion) ∧
      ∀ s ∈ ([⟨"EE-1", 0.5, "x"⟩, ⟨"EE-2", 0.9, "y"⟩, ⟨"EE-3", 0.7, "z"⟩] :
        List Suggestion), s = top ∨ s.confidence < top.confidence :=
  (c3_highest_confidence_collapse
      [⟨"EE-1", 0.5, "x"⟩, ⟨"EE-2", 0.9, "y"⟩, ⟨"EE-3", 0.7, "z"⟩]).2
    (by decide) (by simp [List.pairwise_cons]; norm_num)

/-- C7: the retry sweep's selection function never selects anything — the
query construction raises `AttributeError` (`db.func` on a plain Session,
main.py line 1168) on every call, so the `except` path returns the empty
list unconditionally — while the claimed (and spec-intended) selection of
documents created more than one hour before `now` with zero links is
non-empty on the concrete state below: the code can never return the set
the claim describes. -/
theorem c7_retry_sweep_query_dead (now : Int)
    (db : Option (List DocumentRow × List LinkRow)) :
    find_unprocessed_documents now db = [] ∧
    intended_unprocessed_selection 10000 [⟨"doc-old", 0⟩] [] = [⟨"doc-old", 0⟩] ∧
    find_unprocessed_documents 10000 (some ([⟨"doc-old", 0⟩], [])) = [] :=
  ⟨rfl, rfl, rfl⟩

/-- C4 counterexample: on the concrete non-JSON response below, the Ollama
path of `scan_control` returns empty requirements but a one-element gaps
list (the placeholder gap), so the claimed "empty requirements and empty
gaps lists ... for both the OpenAI path and the Ollama path" is false. -/
theorem c4_counterexample :
    (scan_control_parse true "This is not JSON").requirements = [] ∧
    (scan_control_parse true "This is not JSON").gaps.length = 1 ∧
    (scan_control_parse true "This is not JSON").gaps ≠ [] := by
  refine ⟨rfl, rfl, ?_⟩
  have h1 : (scan_control_parse true "This is not JSON").gaps.length = 1 := rfl
  intro h
  rw [h] at h1
  simp at h1

/-- C4 (amended): a response that fails to parse still completes the scan
with a result, but the paths differ: the OpenAI path returns empty
requirements and empty gaps on any decode or validation failure, while the
Ollama path returns empty requirements and exactly one placeholder gap on
a JSON decode failure (a post-decode validation failure raises and reaches
scan_control's catch-all, which returns the empty result). -/
theorem c4_parse_failure_result (text : String) :
    (json_loads (pyStrip text) = none →
      scan_control_parse false text = ⟨[], []⟩ ∧
      scan_control_parse true text = toResultDict fallbackScanResponse ∧
      (toResultDict fallbackScanResponse).requirements = [] ∧
      (toResultDict fallbackScanResponse).gaps.length = 1) ∧
    (∀ v, json_loads (pyStrip text) = some v → scanResponseOfJson v = none →
      scan_control_parse false text = ⟨[], []⟩ ∧
      scan_control_parse true text = ⟨[], []⟩) := by
  constructor
  · intro h
    refine ⟨?_, ?_, rfl, rfl⟩
    · simp [scan_control_parse, openai_parse_scan_response, toResultDict, h]
    · simp [scan_control_parse, call_ollama_parse, h]
  · intro v hv hval
    constructor
    · simp [scan_control_parse, openai_parse_scan_response, toResultDict, hv, hval]
    · simp [scan_control_parse, call_ollama_parse, hv, hval]

/-- C4 witness: the OpenAI path on a non-JSON response and the Ollama path
on a decoded-but-invalid response both yield the empty result. -/
theorem c4_parse_failure_result_witness :
    scan_control_parse false "no json here" = ⟨[], []⟩ ∧
    scan_control_parse true "[1, 2]" = ⟨[], []⟩ :=
  ⟨((c4_parse_failure_result "no json here").1 rfl).1,
   ((c4_parse_failure_result "[1, 2]").2 (.arr [.num "1", .num "2"]) rfl rfl).2⟩

/-- C8: every evidence excerpt appears in the rendered scan prompt as a
`Content:` block whose text, when the excerpt exceeds 15,000 characters, is
exactly the excerpt's first 15,000 characters immediately followed by the
marker "... [truncated]", and otherwise is the full untouched excerpt with
no marker appended. -/
theorem c8_prompt_truncation (control : ControlInfo)
    (requirements : List RequirementInfo) (evidenceTexts : List EvidenceText)
    (i : Nat) (e : EvidenceText) (hi : evidenceTexts.get? i = some e) :
    ∃ pre post,
      build_scan_prompt control requirements evidenceTexts =
        pre ++ ("Content: "
          ++ (if e.text.length > 15000 then e.text.take 15000 ++ "... [truncated]"
              else e.text) ++ "\n") ++ post ∧
      (e.text.length > 15000 →
        (if e.text.length > 15000 then e.text.take 15000 ++ "... [truncated]"
         else e.text) = e.text.take 15000 ++ "... [truncated]" ∧
        (e.text.take 15000).length = 15000) ∧
      (¬ e.text.length > 15000 →
        (if e.text.length > 15000 then e.text.take 15000 ++ "... [truncated]"
         else e.text) = e.text) := by
  obtain ⟨l1, l2, heq, hlen⟩ := exists_split_of_get? evidenceTexts i e hi
  subst heq
  refine ⟨scanPromptHeader control
      ++ (requirements.map requirementSection).foldl (· ++ ·) ""
      ++ "\nEVIDENCE DOCUMENTS:\n"
      ++ evidenceBlocks 0 l1
      ++ ("\nDocument " ++ toString (0 + l1.length + 1) ++ ": " ++ e.document_name
          ++ " (Page " ++ toString e.page_num ++ ")\n"),
    evidenceBlocks (0 + l1.length + 1) l2 ++ scanPromptInstructions,
    ?_, ?_, ?_⟩
  · unfold build_scan_prompt
    rw [evidenceBlocks_append]
    unfold evidenceBlock
    simp only [String.append_assoc]
  · intro h
    refine ⟨if_pos h, ?_⟩
    have hdata : (e.text.take 15000).length = min 15000 e.text.length := by
      rw [String.take_eq]
      show (List.take 15000 e.text.data).length = _
      rw [List.length_take]
      rfl
    rw [hdata]
    exact Nat.min_eq_left (le_of_lt h)
  · intro h
    exact if_neg h

/-- C8 witness: a short excerpt is rendered in full, with no truncation
marker appended. -/
theorem c8_prompt_truncation_witness :
    ∃ pre post,
      build_scan_prompt ⟨"EE-1", "Application Control", "descr"⟩ []
          [⟨"doc-1", "evidence.pdf", 1, "short text"⟩] =
        pre ++ ("Content: " ++ "short text" ++ "\n") ++ post := by
  obtain ⟨pre, post, h, _, hshort⟩ :=
    c8_prompt_truncation ⟨"EE-1", "Application Control", "descr"⟩ []
      [⟨"doc-1", "evidence.pdf", 1, "short text"⟩] 0
      ⟨"doc-1", "evidence.pdf", 1, "short text"⟩ rfl
  refine ⟨pre, post, ?_⟩
  rw [h, hshort (by decide)]

/-- C10: `_extract_json_content_only` is total and returns either `None` or
a contiguous substring of the whitespace-trimmed input that begins with `{`
and ends with `}`; in particular it returns `None` on the empty input and
on any input containing no `{`. -/
theorem c10_extract_json_content_only_safe (s : String) :
    (extract_json_content_only s = none ∨
      ∃ r, extract_json_content_only s = some r ∧
        r.data <:+: (pyStrip s).data ∧
        r.data.head? = some '\x7b' ∧ r.data.getLast? = some '\x7d') ∧
    (s = "" → extract_json_content_only s = none) ∧
    ('\x7b' ∉ s.data → extract_json_content_only s = none) := by
  refine ⟨?_, ?_, ?_⟩
  · by_cases hse : s = ""
    · left
      simp [extract_json_content_only, hse]
    · rw [show extract_json_content_only s
          = extractBody (pyStripList s.data) from by
        unfold extract_json_content_only
        rw [if_neg hse]]
      unfold extractBody
      by_cases hbr : (pyStripList s.data).head? = some '\x7b'
          ∧ (pyStripList s.data).getLast? = some '\x7d'
      · right
        rw [if_pos (by simp [hbr.1, hbr.2])]
        exact ⟨String.mk (pyStripList s.data), rfl, List.infix_rfl, hbr.1, hbr.2⟩
      · rw [if_neg (by simpa using fun h1 h2 => hbr ⟨h1, h2⟩)]
        cases hfb : (pyStripList s.data).dropWhile (· ≠ '\x7b') with
        | nil =>
          left
          simp [extractBraceScan, hfb]
        | cons c cs =>
          have hc : c = '\x7b' := by
            have := head_dropWhile_false _ _ _ _ hfb
            simpa using this
          cases hscan : braceScanLen (c :: cs) 0 with
          | none =>
            left
            simp [extractBraceScan, hfb, hscan]
          | some k =>
            right
            obtain ⟨hk1, hk2, pre, hpre⟩ := braceScanLen_spec (c :: cs) 0 k hscan
            have htake : ((c :: cs).take k).head? = some '\x7b' := by
              cases k with
              | zero => omega
              | succ k' => rw [List.take_succ_cons]; simp [hc]
            have hlast : ((c :: cs).take k).getLast? = some '\x7d' := by
              rw [hpre]
              exact List.getLast?_concat pre
            have hstrip : pyStripList ((c :: cs).take k) = (c :: cs).take k := by
              apply pyStripList_eq_self _ '\x7b' '\x7d' htake rfl hlast rfl
            refine ⟨String.mk (pyStripList ((c :: cs).take k)),
              by simp [extractBraceScan, hfb, hscan], ?_, ?_, ?_⟩
            · show pyStripList ((c :: cs).take k) <:+: pyStripList s.data
              rw [hstrip]
              refine List.IsInfix.trans ?_
                ((List.dropWhile_suffix (fun a => decide (a ≠ '\x7b'))).isInfix)
              rw [hfb]
              have hpre2 := List.take_prefix k (c :: cs)
              exact hpre2.isInfix
            · rw [hstrip]
              exact htake
            · rw [hstrip]
              exact hlast
  · rintro rfl
    rfl
  · intro hmem
    unfold extract_json_content_only
    by_cases hse : s = ""
    · rw [if_pos hse]
    · rw [if_neg hse]
      have hsub : ∀ c ∈ pyStripList s.data, c ∈ s.data :=
        fun c hc => (pyStripList_contiguous s.data).subset hc
      have hnb : '\x7b' ∉ pyStripList s.data := fun h => hmem (hsub _ h)
      unfold extractBody
      rw [if_neg ?hcond]
      case hcond =>
        simp only [Bool.and_eq_true, decide_eq_true_eq, not_and]
        intro h1 _
        exact absurd (List.mem_of_mem_head? h1) hnb
      have hdw : (pyStripList s.data).dropWhile (· ≠ '\x7b') = [] := by
        rw [List.dropWhile_eq_nil_iff]
        intro a ha
        simp only [decide_eq_true_eq]
        exact fun heq => hnb (heq ▸ ha)
      rw [hdw]
      rfl

/-- C10 witness: a response with prose around a balanced object yields that
object; the empty response and a brace-free response yield `None`. -/
theorem c10_extract_json_content_only_safe_witness :
    extract_json_content_only "" = none ∧
    extract_json_content_only "plain prose" = none :=
  ⟨(c10_extract_json_content_only_safe "").2.1 rfl,
   (c10_extract_json_content_only_safe "plain prose").2.2 (by decide)⟩

/-- C9: a scan for a control with zero manual and zero AI evidence links
goes straight to `completed` with progress 100 and step "No evidence to
scan"; the scanner is never invoked and no result or gap rows are stored. -/
theorem c9_scan_without_evidence (settings : Option WorkerSettings)
    (scan0 : ScanRow) (requirements : List RequirementInfo)
    (manual ai : List EvidenceLinkRow) (pages : String → List PageRow)
    (scanner : List EvidenceText → ScanResultDict)
    (hm : manual = []) (ha : ai = []) :
    process_scan settings scan0 requirements manual ai pages scanner =
      { scan := ⟨"completed", resolveModelName settings, "v1.0", 100,
          "No evidence to scan", requirements.length, 0⟩,
        scannerCalled := false, storedResults := [], storedGaps := [] } := by
  subst hm ha
  rfl

/-- C9 witness: the no-evidence early exit on concrete inputs. -/
theorem c9_scan_without_evidence_witness :
    process_scan none
        ⟨"pending", "", "", 0, "Initializing...", 0, 0⟩
        [⟨"req-1", "EE-1.1", "text", none, 1⟩] [] []
        (fun _ => []) (fun _ => ⟨[], []⟩) =
      { scan := ⟨"completed", "gpt-4", "v1.0", 100, "No evidence to scan", 1, 0⟩
        scannerCalled := false, storedResults := [], storedGaps := [] } :=
  c9_scan_without_evidence none ⟨"pending", "", "", 0, "Initializing...", 0, 0⟩
    [⟨"req-1", "EE-1.1", "text", none, 1⟩] [] [] (fun _ => []) (fun _ => ⟨[], []⟩)
    rfl rfl

end GGC
